/-
Verification of the voice-reference resolver in `app/main.py` of the
AudioForge repository (a FastAPI TTS server with voice cloning).

The bespoke logic of the repository is the helper `run_inference(text,
voice_name)` (lines 75-136 of `app/main.py`) together with the module-level
pre-load loop (lines 50-58).  We embed it shallowly:

* the external collaborators (`os.path.exists`, `open(...).read()`,
  `tts_model.encode_reference`, `tts_model.infer`) become fields of an
  environment record `Env`; fallible calls return `Except String _`,
  mirroring Python exceptions carrying a message;
* the mutable dict `app_state["cached_references"]` becomes an association
  list threaded through the functions, with Python-dict semantics for
  lookup and assignment (`lookupRef`, `dictSet`);
* observable side effects (filesystem probes, file reads, encode calls,
  inference calls, log lines) are recorded in an `Effect` trace so that
  frame claims ("a cache hit performs no I/O") are statable;
* `run_inference` is split syntactically at line 123 into `resolve`
  (lines 91-121: pick a reference, possibly mutating the cache) and
  `synthesize` (lines 123-136: run inference and serialize to WAV), and
  recomposed; this matches the resolve/synthesize contracts of the spec
  while staying line-faithful to the source.
-/
import Mathlib

namespace AudioForge

/-- A cached voice reference: `{"text": ref_text, "codes": ref_codes}`
(`app/main.py` lines 57 and 107).  The codes are opaque; we model them as a
`Nat` token produced by the external encoder. -/
structure VoiceReference where
  text : String
  codes : Nat
deriving DecidableEq, Repr

/-- A FastAPI `HTTPException(status_code=..., detail=...)`. -/
structure HTTPErr where
  status : Nat
  detail : String
deriving DecidableEq, Repr

/-- Observable side effects of `run_inference`, in program order:
filesystem existence probes, text-file reads, reference encodes, the model
inference call, and log lines. -/
inductive Effect where
  | pathProbe (path : String)
  | fileRead (path : String)
  | encodeCall (path : String)
  | inferCall
  | log (msg : String)
deriving DecidableEq, Repr

/-- The external collaborators of `app/main.py`, as pure oracles.
`modelLoaded` models `app_state.get("tts_model")` being truthy (line 88);
`pathProbe` is `os.path.exists`; `fileRead` is `open(p, "r").read()` and may
raise; `encodeReference` and `inferFn` are the opaque model capabilities and
may raise.  Errors carry the exception's string rendering. -/
structure Env where
  modelLoaded : Bool
  pathProbe : String → Bool
  fileRead : String → Except String String
  encodeReference : String → Except String Nat
  inferFn : String → Nat → String → Except String (List Int)

/-- The reference cache `app_state["cached_references"]`: a Python dict from
voice-name key to reference, modelled as an insertion-ordered association
list. -/
abbrev Cache := List (String × VoiceReference)

/-- Python dict lookup / `in` test: first (and only) binding of the key. -/
def lookupRef : Cache → String → Option VoiceReference
  | [], _ => none
  | (k, v) :: rest, key => if k = key then some v else lookupRef rest key

/-- Python dict assignment `d[k] = v`: overwrite in place if the key is
present, else append at the end (insertion order). -/
def dictSet : Cache → String → VoiceReference → Cache
  | [], k, v => [(k, v)]
  | (k', v') :: rest, k, v =>
    if k' = k then (k, v) :: rest else (k', v') :: dictSet rest k v

/-- Number of bindings of a key in the cache (a dict has at most one). -/
def countKey (cache : Cache) (k : String) : Nat :=
  (cache.filter (fun p => p.1 = k)).length

/-- Python `str.upper()` restricted to ASCII, as applied to voice names
(line 91: `requested = voice_name.upper()`). -/
def pyUpper (s : String) : String :=
  ⟨s.data.map Char.toUpper⟩

/-- Characters removed by Python `str.strip()` (ASCII whitespace). -/
def isPySpace (c : Char) : Bool :=
  c == ' ' || c == '\t' || c == '\n' || c == '\r' || c == '\x0b' || c == '\x0c'

/-- Python `str.strip()`: drop leading and trailing whitespace
(lines 55 and 104: `open(...).read().strip()`). -/
def pyStrip (s : String) : String :=
  ⟨((s.data.dropWhile isPySpace).reverse.dropWhile isPySpace).reverse⟩

/-- `os.path.join("samples", f"(voice_name).wav")` on a POSIX system
(line 99). -/
def samplesAudioPath (voice_name : String) : String :=
  "samples/" ++ voice_name ++ ".wav"

/-- `os.path.join("samples", f"(voice_name).txt")` on a POSIX system
(line 100). -/
def samplesTextPath (voice_name : String) : String :=
  "samples/" ++ voice_name ++ ".txt"

/-- The warning emitted when falling back to MALE (line 118). -/
def maleFallbackWarning (voice_name : String) : String :=
  "Requested voice \x27" ++ voice_name ++ "\x27 not found in samples/. Falling back to MALE."

/-- The 404 detail when no reference and no fallback exist (line 121). -/
def notFoundDetail (voice_name : String) : String :=
  "Reference voice for \x27" ++ voice_name ++ "\x27 not found and no MALE fallback available."

/-- The log line for a failed dynamic encode (line 110). -/
def encodeFailureMsg (voice_name e : String) : String :=
  "Failed to encode dynamic reference \x27" ++ voice_name ++ "\x27: " ++ e

/-- The log line announcing inference (line 124). -/
def inferStartMsg (voice_name : String) : String :=
  "Running inference for voice \x27" ++ voice_name ++ "\x27 (using cached key)"

/-- The log line for a failed inference (line 135). -/
def inferFailureMsg (e : String) : String :=
  "An error occurred during inference: " ++ e

/-- Lines 116-121 of `app/main.py`: when no reference was found, fall back
to the cached MALE voice with a warning, or raise 404. -/
def maleFallback (cache : Cache) (voice_name : String) :
    Except HTTPErr (VoiceReference × Option String) :=
  match lookupRef cache "MALE" with
  | some reference => Except.ok (reference, some (maleFallbackWarning voice_name))
  | none => Except.error ⟨404, notFoundDetail voice_name⟩

/-- Lines 91-121 of `app/main.py`: resolve `voice_name` to a reference.
Returns the outcome (reference plus optional fallback warning, or an HTTP
error), the updated cache, and the effect trace.  The disk probe uses
`voice_name` verbatim (case-sensitive paths), while the cache key is the
upper-cased name; the `and` of line 102 short-circuits, so the second
probe only happens when the first succeeds. -/
def resolve (env : Env) (cache : Cache) (voice_name : String) :
    Except HTTPErr (VoiceReference × Option String) × Cache × List Effect :=
  let requested := pyUpper voice_name
  match lookupRef cache requested with
  | some reference => (Except.ok (reference, none), cache, [])
  | none =>
    let audio_path := samplesAudioPath voice_name
    let text_path := samplesTextPath voice_name
    if env.pathProbe audio_path then
      if env.pathProbe text_path then
        match env.fileRead text_path with
        | Except.ok raw =>
          match env.encodeReference audio_path with
          | Except.ok codes =>
            let vref : VoiceReference := { text := pyStrip raw, codes := codes }
            (Except.ok (vref, none), dictSet cache requested vref,
              [Effect.pathProbe audio_path, Effect.pathProbe text_path,
               Effect.fileRead text_path, Effect.encodeCall audio_path])
          | Except.error e =>
            (maleFallback cache voice_name, cache,
              [Effect.pathProbe audio_path, Effect.pathProbe text_path,
               Effect.fileRead text_path, Effect.encodeCall audio_path,
               Effect.log (encodeFailureMsg voice_name e)])
        | Except.error e =>
          (maleFallback cache voice_name, cache,
            [Effect.pathProbe audio_path, Effect.pathProbe text_path,
             Effect.fileRead text_path,
             Effect.log (encodeFailureMsg voice_name e)])
      else
        (maleFallback cache voice_name, cache,
          [Effect.pathProbe audio_path, Effect.pathProbe text_path])
    else
      (maleFallback cache voice_name, cache, [Effect.pathProbe audio_path])

/-- Serialize `n` as two little-endian bytes. -/
def u16le (n : Nat) : List Nat :=
  [n % 256, n / 256 % 256]

/-- Serialize `n` as four little-endian bytes. -/
def u32le (n : Nat) : List Nat :=
  [n % 256, n / 256 % 256, n / 65536 % 256, n / 16777216 % 256]

/-- A waveform sample as a 16-bit little-endian PCM word. -/
def i16bytes (i : Int) : List Nat :=
  u16le (i % 65536).toNat

/-- The PCM payload of a waveform: its samples as 16-bit LE words. -/
def wavDataBytes (wav : List Int) : List Nat :=
  wav.foldr (fun s acc => i16bytes s ++ acc) []

/-- Modelled from the spec: the WAV in-memory serialization performed by
`sf.write(buffer, wav, 24000, format=WAV)` (line 128), a capability of the
external soundfile library, not code of this repository.  Per the spec it
"serializes to a WAV container in memory"; we emit the canonical RIFF/WAVE
container for 16-bit mono PCM: the byte literals are the ASCII tags RIFF
(82,73,70,70), WAVE (87,65,86,69), fmt-space (102,109,116,32) and data
(100,97,116,97), followed in the fmt chunk by format 1 (PCM), one channel,
the sample rate, the byte rate, block align 2 and 16 bits per sample. -/
def sfWriteWAV (wav : List Int) (sampleRate : Nat) : List Nat :=
  [82, 73, 70, 70] ++ u32le (36 + (wavDataBytes wav).length) ++ [87, 65, 86, 69] ++
    [102, 109, 116, 32] ++ u32le 16 ++ u16le 1 ++ u16le 1 ++
    u32le sampleRate ++ u32le (sampleRate * 2) ++ u16le 2 ++ u16le 16 ++
    [100, 97, 116, 97] ++ u32le (wavDataBytes wav).length ++ wavDataBytes wav

/-- The four-byte RIFF signature opening every WAV container. -/
def wavSignature : List Nat := [82, 73, 70, 70]

/-- The sample rate a WAV byte buffer declares: the little-endian 32-bit
field at offset 24 of the canonical header. -/
def declaredSampleRate (b : List Nat) : Nat :=
  b.getD 24 0 + 256 * b.getD 25 0 + 65536 * b.getD 26 0 + 16777216 * b.getD 27 0

/-- Lines 123-136 of `app/main.py`: run inference on the chosen reference
and serialize the waveform to WAV bytes; an exception becomes HTTP 500 with
the cause logged only. -/
def synthesize (env : Env) (text voice_name : String) (reference : VoiceReference) :
    Except HTTPErr (List Nat) × List Effect :=
  match env.inferFn text reference.codes reference.text with
  | Except.ok wav =>
    (Except.ok (sfWriteWAV wav 24000),
      [Effect.log (inferStartMsg voice_name), Effect.inferCall,
       Effect.log "Inference successful."])
  | Except.error e =>
    (Except.error ⟨500, "Failed to generate audio due to an internal error."⟩,
      [Effect.log (inferStartMsg voice_name), Effect.inferCall,
       Effect.log (inferFailureMsg e)])

/-- Lines 85-136 of `app/main.py`: the full helper `run_inference`.
Checks model availability (503), resolves the voice, then synthesizes.
Returns the outcome (WAV bytes plus optional warning, or an HTTP error),
the updated cache and the effect trace. -/
def run_inference (env : Env) (cache : Cache) (text voice_name : String) :
    Except HTTPErr (List Nat × Option String) × Cache × List Effect :=
  if env.modelLoaded then
    match resolve env cache voice_name with
    | (Except.error err, cache', effs) => (Except.error err, cache', effs)
    | (Except.ok (reference, warning), cache', effs) =>
      match synthesize env text voice_name reference with
      | (Except.ok bytes, effs2) => (Except.ok (bytes, warning), cache', effs ++ effs2)
      | (Except.error err, effs2) => (Except.error err, cache', effs ++ effs2)
  else
    (Except.error ⟨503, "TTS model is not available."⟩, cache, [])

/-- The `voice_types` table of lines 45-48: name, audio path, text path. -/
def voice_types : List (String × String × String) :=
  [("MALE", "samples/male.wav", "samples/male.txt"),
   ("FEMALE", "samples/female.wav", "samples/female.txt")]

/-- Lines 50-58 of `app/main.py`: the module-level pre-load loop.  A voice
whose files are missing is skipped; a read or encode exception is not
caught at module level, so it aborts start-up (`Except.error`). -/
def preload (env : Env) : Except String Cache :=
  voice_types.foldlM
    (fun cache entry =>
      let name := entry.1
      let audio := entry.2.1
      let textPath := entry.2.2
      if env.pathProbe audio && env.pathProbe textPath then
        match env.fileRead textPath with
        | Except.error e => Except.error e
        | Except.ok raw =>
          match env.encodeReference audio with
          | Except.error e => Except.error e
          | Except.ok codes =>
            Except.ok (dictSet cache name { text := pyStrip raw, codes := codes })
      else
        Except.ok cache)
    []

/-! ### Association-list (Python dict) lemmas -/

theorem lookupRef_append_of_some {cache : Cache} {k : String} {v : VoiceReference}
    (d : Cache) (h : lookupRef cache k = some v) : lookupRef (cache ++ d) k = some v := by
  induction cache with
  | nil => simp [lookupRef] at h
  | cons p rest ih =>
    obtain ⟨k', v'⟩ := p
    by_cases hk : k' = k
    · simpa [lookupRef, hk] using h
    · rw [lookupRef] at h
      simp only [hk, if_false] at h
      simpa [lookupRef, hk] using ih h

theorem dictSet_of_lookup_none {cache : Cache} {k : String} (v : VoiceReference)
    (h : lookupRef cache k = none) : dictSet cache k v = cache ++ [(k, v)] := by
  induction cache with
  | nil => rfl
  | cons p rest ih =>
    obtain ⟨k', v'⟩ := p
    rw [lookupRef] at h
    by_cases hk : k' = k
    · simp [hk] at h
    · simp only [hk, if_false] at h
      simp [dictSet, hk, ih h]

theorem lookupRef_append_right_self (cache : Cache) (k : String) (v : VoiceReference)
    (h : lookupRef cache k = none) : lookupRef (cache ++ [(k, v)]) k = some v := by
  induction cache with
  | nil => simp [lookupRef]
  | cons p rest ih =>
    obtain ⟨k', v'⟩ := p
    rw [lookupRef] at h
    by_cases hk : k' = k
    · simp [hk] at h
    · simp only [hk, if_false] at h
      simpa [lookupRef, hk] using ih h

theorem countKey_eq_zero_of_lookup_none {cache : Cache} {k : String}
    (h : lookupRef cache k = none) : countKey cache k = 0 := by
  induction cache with
  | nil => rfl
  | cons p rest ih =>
    obtain ⟨k', v'⟩ := p
    rw [lookupRef] at h
    by_cases hk : k' = k
    · simp [hk] at h
    · simp only [hk, if_false] at h
      simp only [countKey, List.filter, hk, decide_False] at ih ⊢
      exact ih h

theorem countKey_append (cache d : Cache) (k : String) :
    countKey (cache ++ d) k = countKey cache k + countKey d k := by
  simp [countKey, List.filter_append]

/-! ### Branch equations for `resolve` -/

theorem resolve_of_hit (env : Env) (cache : Cache) (voice_name : String)
    (r : VoiceReference) (h : lookupRef cache (pyUpper voice_name) = some r) :
    resolve env cache voice_name = (Except.ok (r, none), cache, []) := by
  simp [resolve, h]

theorem resolve_of_encode_ok (env : Env) (cache : Cache) (voice_name raw : String)
    (codes : Nat)
    (h1 : lookupRef cache (pyUpper voice_name) = none)
    (h2 : env.pathProbe (samplesAudioPath voice_name) = true)
    (h3 : env.pathProbe (samplesTextPath voice_name) = true)
    (h4 : env.fileRead (samplesTextPath voice_name) = Except.ok raw)
    (h5 : env.encodeReference (samplesAudioPath voice_name) = Except.ok codes) :
    resolve env cache voice_name =
      (Except.ok ({ text := pyStrip raw, codes := codes }, none),
       cache ++ [(pyUpper voice_name, { text := pyStrip raw, codes := codes })],
       [Effect.pathProbe (samplesAudioPath voice_name),
        Effect.pathProbe (samplesTextPath voice_name),
        Effect.fileRead (samplesTextPath voice_name),
        Effect.encodeCall (samplesAudioPath voice_name)]) := by
  simp [resolve, h1, h2, h3, h4, h5, dictSet_of_lookup_none _ h1]

theorem resolve_of_no_assets (env : Env) (cache : Cache) (voice_name : String)
    (h1 : lookupRef cache (pyUpper voice_name) = none)
    (h2 : env.pathProbe (samplesAudioPath voice_name) = false ∨
          env.pathProbe (samplesTextPath voice_name) = false) :
    (resolve env cache voice_name).1 = maleFallback cache voice_name ∧
    (resolve env cache voice_name).2.1 = cache ∧
    Effect.inferCall ∉ (resolve env cache voice_name).2.2 ∧
    (∀ p, Effect.fileRead p ∉ (resolve env cache voice_name).2.2) ∧
    (∀ p, Effect.encodeCall p ∉ (resolve env cache voice_name).2.2) := by
  rcases h2 with h2 | h2
  · simp [resolve, h1, h2]
  · by_cases ha : env.pathProbe (samplesAudioPath voice_name) = true
    · simp [resolve, h1, ha, h2]
    · have ha' : env.pathProbe (samplesAudioPath voice_name) = false := by
        simpa using ha
      simp [resolve, h1, ha', h2]

theorem resolve_of_encode_fail (env : Env) (cache : Cache) (voice_name e : String)
    (h1 : lookupRef cache (pyUpper voice_name) = none)
    (h2 : env.pathProbe (samplesAudioPath voice_name) = true)
    (h3 : env.pathProbe (samplesTextPath voice_name) = true)
    (h4 : env.fileRead (samplesTextPath voice_name) = Except.error e ∨
          ∃ raw, env.fileRead (samplesTextPath voice_name) = Except.ok raw ∧
            env.encodeReference (samplesAudioPath voice_name) = Except.error e) :
    (resolve env cache voice_name).1 = maleFallback cache voice_name ∧
    (resolve env cache voice_name).2.1 = cache ∧
    Effect.log (encodeFailureMsg voice_name e) ∈ (resolve env cache voice_name).2.2 := by
  rcases h4 with h4 | ⟨raw, h4, h5⟩
  · simp [resolve, h1, h2, h3, h4]
  · simp [resolve, h1, h2, h3, h4, h5]

/-- Whatever `resolve` does, the cache either stays as it was or gains a
single binding, appended at the end under the normalized key, and the
latter only when that key was absent. -/
theorem resolve_cache_shape (env : Env) (cache : Cache) (voice_name : String) :
    (resolve env cache voice_name).2.1 = cache ∨
    (lookupRef cache (pyUpper voice_name) = none ∧
     ∃ vref, (resolve env cache voice_name).2.1 = cache ++ [(pyUpper voice_name, vref)]) := by
  cases h : lookupRef cache (pyUpper voice_name) with
  | some r => left; simp [resolve, h]
  | none =>
    by_cases h2 : env.pathProbe (samplesAudioPath voice_name) = true
    · by_cases h3 : env.pathProbe (samplesTextPath voice_name) = true
      · cases h4 : env.fileRead (samplesTextPath voice_name) with
        | error e => left; simp [resolve, h, h2, h3, h4]
        | ok raw =>
          cases h5 : env.encodeReference (samplesAudioPath voice_name) with
          | error e => left; simp [resolve, h, h2, h3, h4, h5]
          | ok codes =>
            right
            refine ⟨rfl, { text := pyStrip raw, codes := codes }, ?_⟩
            simp [resolve, h, h2, h3, h4, h5, dictSet_of_lookup_none _ h]
      · have h3' : env.pathProbe (samplesTextPath voice_name) = false := by simpa using h3
        left; simp [resolve, h, h2, h3']
    · have h2' : env.pathProbe (samplesAudioPath voice_name) = false := by simpa using h2
      left; simp [resolve, h, h2']

/-- The cache `run_inference` hands back is exactly the cache `resolve`
produced (synthesis never touches it); when the model is missing the cache
is untouched. -/
theorem run_inference_cache_eq (env : Env) (cache : Cache) (text voice_name : String) :
    (run_inference env cache text voice_name).2.1 =
      if env.modelLoaded then (resolve env cache voice_name).2.1 else cache := by
  by_cases hm : env.modelLoaded
  · rcases hres : resolve env cache voice_name with ⟨res, c2, effs⟩
    cases res with
    | error err => simp [run_inference, hm, hres]
    | ok p =>
      obtain ⟨ref, warn⟩ := p
      rcases hs : synthesize env text voice_name ref with ⟨r2, effs2⟩
      cases r2 <;> simp [run_inference, hm, hres, hs]
  · simp [run_inference, hm]

/-! ### WAV container lemmas -/

theorem sfWriteWAV_take_four (wav : List Int) (sampleRate : Nat) :
    (sfWriteWAV wav sampleRate).take 4 = wavSignature := by
  simp [sfWriteWAV, u32le, u16le, wavSignature]

theorem declaredSampleRate_sfWriteWAV (wav : List Int) :
    declaredSampleRate (sfWriteWAV wav 24000) = 24000 := by
  have h24 : (sfWriteWAV wav 24000).getD 24 0 = 192 := by
    simp [sfWriteWAV, u32le, u16le, List.getD]
  have h25 : (sfWriteWAV wav 24000).getD 25 0 = 93 := by
    simp [sfWriteWAV, u32le, u16le, List.getD]
  have h26 : (sfWriteWAV wav 24000).getD 26 0 = 0 := by
    simp [sfWriteWAV, u32le, u16le, List.getD]
  have h27 : (sfWriteWAV wav 24000).getD 27 0 = 0 := by
    simp [sfWriteWAV, u32le, u16le, List.getD]
  rw [declaredSampleRate, h24, h25, h26, h27]

/-! ### Claim theorems -/

/-- C1: for a voice name whose normalized key is not yet cached but whose
`samples/<name>.wav` and `samples/<name>.txt` both exist and whose encode
succeeds, resolution reads the transcript, encodes the audio, appends the
reference under the normalized key exactly once and returns it; a
subsequent resolution of the same name is a cache hit with an empty effect
trace (no disk probe, read or encode). -/
theorem C1_lazy_encode_caches_once (env : Env) (cache : Cache)
    (voice_name raw : String) (codes : Nat)
    (h1 : lookupRef cache (pyUpper voice_name) = none)
    (h2 : env.pathProbe (samplesAudioPath voice_name) = true)
    (h3 : env.pathProbe (samplesTextPath voice_name) = true)
    (h4 : env.fileRead (samplesTextPath voice_name) = Except.ok raw)
    (h5 : env.encodeReference (samplesAudioPath voice_name) = Except.ok codes) :
    resolve env cache voice_name =
      (Except.ok ({ text := pyStrip raw, codes := codes }, none),
       cache ++ [(pyUpper voice_name, { text := pyStrip raw, codes := codes })],
       [Effect.pathProbe (samplesAudioPath voice_name),
        Effect.pathProbe (samplesTextPath voice_name),
        Effect.fileRead (samplesTextPath voice_name),
        Effect.encodeCall (samplesAudioPath voice_name)]) ∧
    countKey (cache ++ [(pyUpper voice_name, { text := pyStrip raw, codes := codes })])
      (pyUpper voice_name) = 1 ∧
    resolve env (cache ++ [(pyUpper voice_name, { text := pyStrip raw, codes := codes })])
      voice_name =
      (Except.ok ({ text := pyStrip raw, codes := codes }, none),
       cache ++ [(pyUpper voice_name, { text := pyStrip raw, codes := codes })],
       []) := by
  refine ⟨resolve_of_encode_ok env cache voice_name raw codes h1 h2 h3 h4 h5, ?_, ?_⟩
  · rw [countKey_append, countKey_eq_zero_of_lookup_none h1]
    simp [countKey, List.filter]
  · exact resolve_of_hit env _ voice_name _ (lookupRef_append_right_self cache _ _ h1)

def C1env : Env where
  modelLoaded := true
  pathProbe := fun p => p == "samples/dave.wav" || p == "samples/dave.txt"
  fileRead := fun p =>
    if p == "samples/dave.txt" then Except.ok "  hello world\n" else Except.error "missing"
  encodeReference := fun p =>
    if p == "samples/dave.wav" then Except.ok 11 else Except.error "unreadable"
  inferFn := fun _ _ _ => Except.ok [0, 1000, -1000]

/-- Witness for C1 at a concrete environment and the uncached voice
"dave". -/
theorem C1_witness :
    resolve C1env [] "dave" =
      (Except.ok ({ text := "hello world", codes := 11 }, none),
       [("DAVE", { text := "hello world", codes := 11 })],
       [Effect.pathProbe "samples/dave.wav", Effect.pathProbe "samples/dave.txt",
        Effect.fileRead "samples/dave.txt", Effect.encodeCall "samples/dave.wav"]) ∧
    countKey [("DAVE", { text := "hello world", codes := 11 })] "DAVE" = 1 ∧
    resolve C1env [("DAVE", { text := "hello world", codes := 11 })] "dave" =
      (Except.ok ({ text := "hello world", codes := 11 }, none),
       [("DAVE", { text := "hello world", codes := 11 })], []) :=
  C1_lazy_encode_caches_once C1env [] "dave" "  hello world\n" 11 rfl rfl rfl rfl rfl

/-- C2: for a voice name that is neither cached nor backed by on-disk
assets, when the key "MALE" is cached, resolution returns the MALE
reference together with a warning that names the requested voice and the
MALE fallback, and leaves the cache unchanged. -/
theorem C2_male_fallback_with_warning (env : Env) (cache : Cache)
    (voice_name : String) (m : VoiceReference)
    (h1 : lookupRef cache (pyUpper voice_name) = none)
    (h2 : env.pathProbe (samplesAudioPath voice_name) = false ∨
          env.pathProbe (samplesTextPath voice_name) = false)
    (h3 : lookupRef cache "MALE" = some m) :
    (resolve env cache voice_name).1 =
      Except.ok (m, some (maleFallbackWarning voice_name)) ∧
    (resolve env cache voice_name).2.1 = cache ∧
    (∃ a b, maleFallbackWarning voice_name = a ++ voice_name ++ b) ∧
    (∃ a b, maleFallbackWarning voice_name = a ++ "MALE" ++ b) := by
  obtain ⟨hres, hcache, -, -, -⟩ := resolve_of_no_assets env cache voice_name h1 h2
  refine ⟨?_, hcache,
    ⟨"Requested voice \x27", "\x27 not found in samples/. Falling back to MALE.", rfl⟩, ?_⟩
  · rw [hres, maleFallback, h3]
  · refine ⟨("Requested voice \x27" ++ voice_name) ++
      "\x27 not found in samples/. Falling back to ", ".", ?_⟩
    conv_rhs => rw [String.append_assoc, String.append_assoc]
    rfl

def C2env : Env where
  modelLoaded := true
  pathProbe := fun _ => false
  fileRead := fun _ => Except.error "io failure"
  encodeReference := fun _ => Except.error "io failure"
  inferFn := fun _ _ _ => Except.ok [1]

/-- Witness for C2: requesting the absent voice "ghost" with MALE cached. -/
theorem C2_witness :
    (resolve C2env [("MALE", { text := "sample", codes := 1 })] "ghost").1 =
      Except.ok ({ text := "sample", codes := 1 },
        some (maleFallbackWarning "ghost")) ∧
    (resolve C2env [("MALE", { text := "sample", codes := 1 })] "ghost").2.1 =
      [("MALE", { text := "sample", codes := 1 })] ∧
    (∃ a b, maleFallbackWarning "ghost" = a ++ "ghost" ++ b) ∧
    (∃ a b, maleFallbackWarning "ghost" = a ++ "MALE" ++ b) :=
  C2_male_fallback_with_warning C2env [("MALE", { text := "sample", codes := 1 })]
    "ghost" { text := "sample", codes := 1 } rfl (Or.inl rfl) rfl

/-- C3: for a voice name with no cache entry, no on-disk assets and no
cached "MALE" key, `run_inference` fails with HTTP 404, the detail names
the requested voice, the cache is unchanged, and no inference call is made
(no audio is produced). -/
theorem C3_not_found_404 (env : Env) (cache : Cache) (text voice_name : String)
    (h0 : env.modelLoaded = true)
    (h1 : lookupRef cache (pyUpper voice_name) = none)
    (h2 : env.pathProbe (samplesAudioPath voice_name) = false ∨
          env.pathProbe (samplesTextPath voice_name) = false)
    (h3 : lookupRef cache "MALE" = none) :
    (run_inference env cache text voice_name).1 =
      Except.error ⟨404, notFoundDetail voice_name⟩ ∧
    (run_inference env cache text voice_name).2.1 = cache ∧
    Effect.inferCall ∉ (run_inference env cache text voice_name).2.2 ∧
    (∃ a b, notFoundDetail voice_name = a ++ voice_name ++ b) := by
  obtain ⟨hres, hcache, hni, -, -⟩ := resolve_of_no_assets env cache voice_name h1 h2
  have hfb : maleFallback cache voice_name = Except.error ⟨404, notFoundDetail voice_name⟩ := by
    rw [maleFallback, h3]
  rcases hr : resolve env cache voice_name with ⟨res, c2, effs⟩
  rw [hr] at hres hcache hni
  simp only at hres hcache hni
  subst hres hcache
  refine ⟨?_, ?_, ?_,
    ⟨"Reference voice for \x27", "\x27 not found and no MALE fallback available.", rfl⟩⟩ <;>
    simp [run_inference, h0, hr, hfb, hni]

def C3env : Env where
  modelLoaded := true
  pathProbe := fun _ => false
  fileRead := fun _ => Except.error "io failure"
  encodeReference := fun _ => Except.error "io failure"
  inferFn := fun _ _ _ => Except.ok [1]

/-- Witness for C3: requesting "ghost" with an empty cache. -/
theorem C3_witness :
    (run_inference C3env [] "hello" "ghost").1 =
      Except.error ⟨404, notFoundDetail "ghost"⟩ ∧
    (run_inference C3env [] "hello" "ghost").2.1 = [] ∧
    Effect.inferCall ∉ (run_inference C3env [] "hello" "ghost").2.2 ∧
    (∃ a b, notFoundDetail "ghost" = a ++ "ghost" ++ b) :=
  C3_not_found_404 C3env [] "hello" "ghost" rfl rfl (Or.inl rfl) rfl

/-- C4: for a voice name whose normalized form is already a cache key,
resolution returns the cached reference with no warning, leaves the cache
unchanged, and its effect trace is empty: no filesystem existence check,
no file read and no encode call. -/
theorem C4_cache_hit_is_pure (env : Env) (cache : Cache) (voice_name : String)
    (r : VoiceReference)
    (h : lookupRef cache (pyUpper voice_name) = some r) :
    resolve env cache voice_name = (Except.ok (r, none), cache, []) ∧
    (∀ p, Effect.pathProbe p ∉ (resolve env cache voice_name).2.2) ∧
    (∀ p, Effect.fileRead p ∉ (resolve env cache voice_name).2.2) ∧
    (∀ p, Effect.encodeCall p ∉ (resolve env cache voice_name).2.2) := by
  have heq := resolve_of_hit env cache voice_name r h
  rw [heq]
  exact ⟨rfl, fun p => List.not_mem_nil _, fun p => List.not_mem_nil _,
    fun p => List.not_mem_nil _⟩

def C4env : Env where
  modelLoaded := true
  pathProbe := fun _ => false
  fileRead := fun _ => Except.error "io failure"
  encodeReference := fun _ => Except.error "io failure"
  inferFn := fun _ _ _ => Except.ok [1]

/-- Witness for C4: "male" hits the cached MALE entry with no effects. -/
theorem C4_witness :
    resolve C4env [("MALE", { text := "sample", codes := 1 })] "male" =
      (Except.ok ({ text := "sample", codes := 1 }, none),
       [("MALE", { text := "sample", codes := 1 })], []) ∧
    (∀ p, Effect.pathProbe p ∉
      (resolve C4env [("MALE", { text := "sample", codes := 1 })] "male").2.2) ∧
    (∀ p, Effect.fileRead p ∉
      (resolve C4env [("MALE", { text := "sample", codes := 1 })] "male").2.2) ∧
    (∀ p, Effect.encodeCall p ∉
      (resolve C4env [("MALE", { text := "sample", codes := 1 })] "male").2.2) :=
  C4_cache_hit_is_pure C4env [("MALE", { text := "sample", codes := 1 })] "male"
    { text := "sample", codes := 1 } rfl

def C5env : Env where
  modelLoaded := true
  pathProbe := fun p => p == "samples/male.wav" || p == "samples/male.txt"
  fileRead := fun p =>
    if p == "samples/male.txt" then Except.ok "hi" else Except.error "io failure"
  encodeReference := fun p =>
    if p == "samples/male.wav" then Except.ok 7 else Except.error "bad audio"
  inferFn := fun _ _ _ => Except.ok [1]

/-- C5 counterexample: "male" and "Male" are equal up to letter case, yet
from the same empty cache over a filesystem holding only the lowercase
assets `samples/male.wav` and `samples/male.txt`, resolving "male"
succeeds with a fresh reference while resolving "Male" fails with 404 (the
disk probe of line 99 uses the name verbatim).  So resolution does not
treat case-equal names the same in every cache and filesystem state. -/
theorem C5_counterexample :
    pyUpper "male" = pyUpper "Male" ∧
    (resolve C5env [] "male").1 = Except.ok ({ text := "hi", codes := 7 }, none) ∧
    (resolve C5env [] "Male").1 = Except.error ⟨404, notFoundDetail "Male"⟩ ∧
    (resolve C5env [] "male").1 ≠ (resolve C5env [] "Male").1 := by
  refine ⟨rfl, rfl, rfl, ?_⟩
  intro h
  rw [show (resolve C5env [] "male").1 =
        Except.ok ({ text := "hi", codes := 7 }, none) from rfl,
      show (resolve C5env [] "Male").1 =
        Except.error ⟨404, notFoundDetail "Male"⟩ from rfl] at h
  exact Except.noConfusion h

/-- C5 (amended): voice-name cache lookup is case-insensitive — names
equal up to letter case normalize to the same cache key, and whenever that
key is present in the cache both names resolve, in the same state, to that
same cached reference with no warning and no effects; only the on-disk
probe for uncached names uses the name verbatim. -/
theorem C5_amended_lookup_case_insensitive (env : Env) (cache : Cache)
    (n1 n2 : String) (r : VoiceReference)
    (hcase : pyUpper n1 = pyUpper n2)
    (h : lookupRef cache (pyUpper n1) = some r) :
    resolve env cache n1 = (Except.ok (r, none), cache, []) ∧
    resolve env cache n2 = (Except.ok (r, none), cache, []) :=
  ⟨resolve_of_hit env cache n1 r h, resolve_of_hit env cache n2 r (hcase ▸ h)⟩

/-- Witness for the amended C5: "male" and "Male" both hit a cached MALE
entry. -/
theorem C5_witness :
    resolve C5env [("MALE", { text := "sample", codes := 1 })] "male" =
      (Except.ok ({ text := "sample", codes := 1 }, none),
       [("MALE", { text := "sample", codes := 1 })], []) ∧
    resolve C5env [("MALE", { text := "sample", codes := 1 })] "Male" =
      (Except.ok ({ text := "sample", codes := 1 }, none),
       [("MALE", { text := "sample", codes := 1 })], []) :=
  C5_amended_lookup_case_insensitive C5env [("MALE", { text := "sample", codes := 1 })]
    "male" "Male" { text := "sample", codes := 1 } rfl rfl

/-- C6: when the on-disk assets exist but the transcript read or the
reference encode raises, the failure is not propagated: the cache is
unchanged, the failure is logged, and resolution falls through to the MALE
fallback when MALE is cached, or to the 404 error when it is not. -/
theorem C6_encode_failure_recovered (env : Env) (cache : Cache)
    (voice_name e : String)
    (h1 : lookupRef cache (pyUpper voice_name) = none)
    (h2 : env.pathProbe (samplesAudioPath voice_name) = true)
    (h3 : env.pathProbe (samplesTextPath voice_name) = true)
    (h4 : env.fileRead (samplesTextPath voice_name) = Except.error e ∨
          ∃ raw, env.fileRead (samplesTextPath voice_name) = Except.ok raw ∧
            env.encodeReference (samplesAudioPath voice_name) = Except.error e) :
    (resolve env cache voice_name).2.1 = cache ∧
    Effect.log (encodeFailureMsg voice_name e) ∈ (resolve env cache voice_name).2.2 ∧
    (∀ m, lookupRef cache "MALE" = some m →
      (resolve env cache voice_name).1 =
        Except.ok (m, some (maleFallbackWarning voice_name))) ∧
    (lookupRef cache "MALE" = none →
      (resolve env cache voice_name).1 =
        Except.error ⟨404, notFoundDetail voice_name⟩) := by
  obtain ⟨hres, hcache, hlog⟩ := resolve_of_encode_fail env cache voice_name e h1 h2 h3 h4
  refine ⟨hcache, hlog, ?_, ?_⟩
  · intro m hm
    rw [hres, maleFallback, hm]
  · intro hm
    rw [hres, maleFallback, hm]

def C6env : Env where
  modelLoaded := true
  pathProbe := fun p => p == "samples/crackly.wav" || p == "samples/crackly.txt"
  fileRead := fun p =>
    if p == "samples/crackly.txt" then Except.ok "a transcript" else Except.error "io failure"
  encodeReference := fun _ => Except.error "corrupt audio"
  inferFn := fun _ _ _ => Except.ok [1]

/-- Witness for C6: the voice "crackly" has assets but its encode raises;
with MALE cached the resolution falls back and logs the failure. -/
theorem C6_witness :
    (resolve C6env [("MALE", { text := "sample", codes := 1 })] "crackly").2.1 =
      [("MALE", { text := "sample", codes := 1 })] ∧
    Effect.log (encodeFailureMsg "crackly" "corrupt audio") ∈
      (resolve C6env [("MALE", { text := "sample", codes := 1 })] "crackly").2.2 ∧
    (resolve C6env [("MALE", { text := "sample", codes := 1 })] "crackly").1 =
      Except.ok ({ text := "sample", codes := 1 },
        some (maleFallbackWarning "crackly")) := by
  have h := C6_encode_failure_recovered C6env
    [("MALE", { text := "sample", codes := 1 })] "crackly" "corrupt audio"
    rfl rfl rfl (Or.inr ⟨"a transcript", rfl, rfl⟩)
  exact ⟨h.1, h.2.1, h.2.2.1 _ rfl⟩

/-- C7: across any `run_inference` call, a cache key that is populated
keeps its value — never removed, never overwritten — and a call whose
normalized voice key is already cached writes nothing to the cache. -/
theorem C7_cache_keys_stable (env : Env) (cache : Cache) (text voice_name : String) :
    (∀ k v, lookupRef cache k = some v →
      lookupRef (run_inference env cache text voice_name).2.1 k = some v) ∧
    (∀ r, lookupRef cache (pyUpper voice_name) = some r →
      (run_inference env cache text voice_name).2.1 = cache) := by
  constructor
  · intro k v hv
    rw [run_inference_cache_eq]
    by_cases hm : env.modelLoaded
    · simp only [hm, if_true]
      rcases resolve_cache_shape env cache voice_name with h | ⟨-, vref, h⟩
      · rw [h]; exact hv
      · rw [h]; exact lookupRef_append_of_some _ hv
    · simp [hm, hv]
  · intro r hr
    rw [run_inference_cache_eq]
    by_cases hm : env.modelLoaded
    · simp only [hm, if_true]
      rw [resolve_of_hit env cache voice_name r hr]
    · simp [hm]

def C7env : Env where
  modelLoaded := true
  pathProbe := fun p => p == "samples/eve.wav" || p == "samples/eve.txt"
  fileRead := fun p =>
    if p == "samples/eve.txt" then Except.ok "evening" else Except.error "io failure"
  encodeReference := fun p =>
    if p == "samples/eve.wav" then Except.ok 9 else Except.error "bad audio"
  inferFn := fun _ _ _ => Except.ok [1]

/-- Witness for C7: a run that lazily caches "eve" preserves the MALE
binding, and a run on the already-cached "male" leaves the cache as it
was. -/
theorem C7_witness :
    lookupRef (run_inference C7env [("MALE", { text := "sample", codes := 1 })]
      "hi" "eve").2.1 "MALE" = some { text := "sample", codes := 1 } ∧
    (run_inference C7env [("MALE", { text := "sample", codes := 1 })]
      "hi" "male").2.1 = [("MALE", { text := "sample", codes := 1 })] := by
  have h1 := C7_cache_keys_stable C7env
    [("MALE", { text := "sample", codes := 1 })] "hi" "eve"
  have h2 := C7_cache_keys_stable C7env
    [("MALE", { text := "sample", codes := 1 })] "hi" "male"
  exact ⟨h1.1 "MALE" { text := "sample", codes := 1 } rfl,
    h2.2 { text := "sample", codes := 1 } rfl⟩

/-- C8: for every text and resolved reference, when the inference
capability returns a waveform, synthesis returns the in-memory WAV
serialization of it, whose first four bytes are the RIFF signature and
whose declared sample rate is 24000; when the inference capability raises,
synthesis fails with HTTP 500 and the original cause appears only in the
log. -/
theorem C8_synthesize_wav_or_500 (env : Env) (text voice_name : String)
    (reference : VoiceReference) :
    (∀ wav, env.inferFn text reference.codes reference.text = Except.ok wav →
      (synthesize env text voice_name reference).1 =
        Except.ok (sfWriteWAV wav 24000) ∧
      (sfWriteWAV wav 24000).take 4 = wavSignature ∧
      declaredSampleRate (sfWriteWAV wav 24000) = 24000) ∧
    (∀ e, env.inferFn text reference.codes reference.text = Except.error e →
      (synthesize env text voice_name reference).1 =
        Except.error ⟨500, "Failed to generate audio due to an internal error."⟩ ∧
      Effect.log (inferFailureMsg e) ∈ (synthesize env text voice_name reference).2) := by
  constructor
  · intro wav h
    exact ⟨by simp [synthesize, h], sfWriteWAV_take_four wav 24000,
      declaredSampleRate_sfWriteWAV wav⟩
  · intro e h
    exact ⟨by simp [synthesize, h], by simp [synthesize, h]⟩

def C8env : Env where
  modelLoaded := true
  pathProbe := fun _ => false
  fileRead := fun _ => Except.error "io failure"
  encodeReference := fun _ => Except.error "bad audio"
  inferFn := fun t _ _ =>
    if t == "Hello, world." then Except.ok [0, 1000, -1000]
    else Except.error "inference blew up"

/-- Witness for C8: a successful synthesis of "Hello, world." and a
failing one. -/
theorem C8_witness :
    ((synthesize C8env "Hello, world." "MALE" { text := "sample", codes := 1 }).1 =
      Except.ok (sfWriteWAV [0, 1000, -1000] 24000) ∧
     (sfWriteWAV [0, 1000, -1000] 24000).take 4 = wavSignature ∧
     declaredSampleRate (sfWriteWAV [0, 1000, -1000] 24000) = 24000) ∧
    ((synthesize C8env "boom" "MALE" { text := "sample", codes := 1 }).1 =
      Except.error ⟨500, "Failed to generate audio due to an internal error."⟩ ∧
     Effect.log (inferFailureMsg "inference blew up") ∈
       (synthesize C8env "boom" "MALE" { text := "sample", codes := 1 }).2) :=
  ⟨(C8_synthesize_wav_or_500 C8env "Hello, world." "MALE"
      { text := "sample", codes := 1 }).1 [0, 1000, -1000] rfl,
   (C8_synthesize_wav_or_500 C8env "boom" "MALE"
      { text := "sample", codes := 1 }).2 "inference blew up" rfl⟩

/-- C9: a failed resolution (missing assets, or assets whose read or
encode raises) leaves the cache unchanged and adds no entry under the
requested key — no negative caching — so a later resolution of the same
name against a filesystem where the assets have appeared probes the disk
again and succeeds. -/
theorem C9_no_negative_caching (env : Env) (cache : Cache)
    (voice_name e raw : String)
    (h1 : lookupRef cache (pyUpper voice_name) = none)
    (h2 : (env.pathProbe (samplesAudioPath voice_name) = false ∨
           env.pathProbe (samplesTextPath voice_name) = false) ∨
          (env.pathProbe (samplesAudioPath voice_name) = true ∧
           env.pathProbe (samplesTextPath voice_name) = true ∧
           (env.fileRead (samplesTextPath voice_name) = Except.error e ∨
            (env.fileRead (samplesTextPath voice_name) = Except.ok raw ∧
             env.encodeReference (samplesAudioPath voice_name) = Except.error e)))) :
    (resolve env cache voice_name).2.1 = cache ∧
    lookupRef (resolve env cache voice_name).2.1 (pyUpper voice_name) = none ∧
    (∀ env2 raw2 codes2,
      env2.pathProbe (samplesAudioPath voice_name) = true →
      env2.pathProbe (samplesTextPath voice_name) = true →
      env2.fileRead (samplesTextPath voice_name) = Except.ok raw2 →
      env2.encodeReference (samplesAudioPath voice_name) = Except.ok codes2 →
      (resolve env2 (resolve env cache voice_name).2.1 voice_name).1 =
        Except.ok ({ text := pyStrip raw2, codes := codes2 }, none) ∧
      Effect.pathProbe (samplesAudioPath voice_name) ∈
        (resolve env2 (resolve env cache voice_name).2.1 voice_name).2.2) := by
  have hcache : (resolve env cache voice_name).2.1 = cache := by
    rcases h2 with h2 | ⟨ha, hb, hc⟩
    · exact (resolve_of_no_assets env cache voice_name h1 h2).2.1
    · refine (resolve_of_encode_fail env cache voice_name e h1 ha hb ?_).2.1
      rcases hc with hc | ⟨hro, hcc⟩
      · exact Or.inl hc
      · exact Or.inr ⟨raw, hro, hcc⟩
  refine ⟨hcache, by rw [hcache]; exact h1, ?_⟩
  intro env2 raw2 codes2 g1 g2 g3 g4
  rw [hcache]
  rw [resolve_of_encode_ok env2 cache voice_name raw2 codes2 h1 g1 g2 g3 g4]
  exact ⟨rfl, by simp⟩

def C9env : Env where
  modelLoaded := true
  pathProbe := fun _ => false
  fileRead := fun _ => Except.error "io failure"
  encodeReference := fun _ => Except.error "bad audio"
  inferFn := fun _ _ _ => Except.ok [1]

def C9env2 : Env where
  modelLoaded := true
  pathProbe := fun p => p == "samples/late.wav" || p == "samples/late.txt"
  fileRead := fun p =>
    if p == "samples/late.txt" then Except.ok "late text" else Except.error "io failure"
  encodeReference := fun p =>
    if p == "samples/late.wav" then Except.ok 4 else Except.error "bad audio"
  inferFn := fun _ _ _ => Except.ok [1]

/-- Witness for C9: resolving "late" fails against an empty filesystem and
caches nothing; once the assets appear the same name resolves. -/
theorem C9_witness :
    (resolve C9env [] "late").2.1 = [] ∧
    lookupRef (resolve C9env [] "late").2.1 "LATE" = none ∧
    ((resolve C9env2 (resolve C9env [] "late").2.1 "late").1 =
      Except.ok ({ text := "late text", codes := 4 }, none) ∧
     Effect.pathProbe "samples/late.wav" ∈
       (resolve C9env2 (resolve C9env [] "late").2.1 "late").2.2) := by
  have h := C9_no_negative_caching C9env [] "late" "io failure" "" rfl
    (Or.inl (Or.inl rfl))
  exact ⟨h.1, h.2.1, h.2.2 C9env2 "late text" 4 rfl rfl rfl rfl⟩

/-- C10: every cached reference transcript — whether preloaded at startup
by the module-level loop or lazily encoded at request time — is the
transcript file's contents with leading and trailing whitespace stripped;
in particular a whitespace-only transcript file yields an empty transcript
string and the reference is still cached and returned. -/
theorem C10_transcripts_stripped (env : Env) (cache pc : Cache)
    (voice_name s raw : String) (c codes : Nat) :
    (env.pathProbe "samples/male.wav" = true →
     env.pathProbe "samples/male.txt" = true →
     env.fileRead "samples/male.txt" = Except.ok s →
     env.encodeReference "samples/male.wav" = Except.ok c →
     preload env = Except.ok pc →
     lookupRef pc "MALE" = some { text := pyStrip s, codes := c }) ∧
    (lookupRef cache (pyUpper voice_name) = none →
     env.pathProbe (samplesAudioPath voice_name) = true →
     env.pathProbe (samplesTextPath voice_name) = true →
     env.fileRead (samplesTextPath voice_name) = Except.ok raw →
     env.encodeReference (samplesAudioPath voice_name) = Except.ok codes →
     (resolve env cache voice_name).1 =
       Except.ok ({ text := pyStrip raw, codes := codes }, none) ∧
     lookupRef (resolve env cache voice_name).2.1 (pyUpper voice_name) =
       some { text := pyStrip raw, codes := codes }) := by
  constructor
  · intro p1 p2 p3 p4 hpc
    simp only [preload, voice_types, List.foldlM, p1, p2, p3, p4, Bool.and_self,
      if_true, dictSet] at hpc
    cases hfw : env.pathProbe "samples/female.wav" with
    | false =>
      simp only [hfw, Bool.false_and, if_false] at hpc
      simp only [bind, Except.bind, pure, Except.pure] at hpc
      cases hpc
      simp [lookupRef]
    | true =>
      cases hft : env.pathProbe "samples/female.txt" with
      | false =>
        simp only [hfw, hft, Bool.and_false, if_false] at hpc
        simp only [bind, Except.bind, pure, Except.pure] at hpc
        cases hpc
        simp [lookupRef]
      | true =>
        simp only [hfw, hft, Bool.and_self, if_true] at hpc
        cases hfr : env.fileRead "samples/female.txt" with
        | error e =>
          simp only [hfr, bind, Except.bind, pure, Except.pure] at hpc
          exact Except.noConfusion hpc
        | ok raw2 =>
          cases hfe : env.encodeReference "samples/female.wav" with
          | error e =>
            simp only [hfr, hfe, bind, Except.bind, pure, Except.pure] at hpc
            exact Except.noConfusion hpc
          | ok c2 =>
            simp only [hfr, hfe, bind, Except.bind, pure, Except.pure, dictSet] at hpc
            cases hpc
            simp [lookupRef]
  · intro h1 h2 h3 h4 h5
    rw [resolve_of_encode_ok env cache voice_name raw codes h1 h2 h3 h4 h5]
    exact ⟨rfl, lookupRef_append_right_self cache _ _ h1⟩

def C10env : Env where
  modelLoaded := true
  pathProbe := fun p =>
    p == "samples/male.wav" || p == "samples/male.txt" ||
      p == "samples/quiet.wav" || p == "samples/quiet.txt"
  fileRead := fun p =>
    if p == "samples/male.txt" then Except.ok " \t\n "
    else if p == "samples/quiet.txt" then Except.ok "\n  \n" else Except.error "io failure"
  encodeReference := fun p =>
    if p == "samples/male.wav" then Except.ok 5
    else if p == "samples/quiet.wav" then Except.ok 6 else Except.error "bad audio"
  inferFn := fun _ _ _ => Except.ok [1]

/-- Witness for C10: whitespace-only transcript files, one preloaded
(MALE) and one lazily encoded ("quiet"), both cached with the empty
transcript. -/
theorem C10_witness :
    lookupRef [("MALE", { text := "", codes := 5 })] "MALE" =
      some { text := "", codes := 5 } ∧
    ((resolve C10env [] "quiet").1 =
      Except.ok ({ text := "", codes := 6 }, none) ∧
     lookupRef (resolve C10env [] "quiet").2.1 "QUIET" =
       some { text := "", codes := 6 }) := by
  have h := C10_transcripts_stripped C10env [] [("MALE", { text := "", codes := 5 })]
    "quiet" " \t\n " "\n  \n" 5 6
  exact ⟨h.1 rfl rfl rfl rfl rfl, h.2 rfl rfl rfl rfl rfl⟩

end AudioForge
